import Mathlib

/-!
Shallow embedding of the cart drawer controller from `src/assets/cart.js`
(class `CartDrawer`).

The controller is single-threaded and event-driven; every network call is a
suspension point whose outcome is supplied by the environment.  We model the
controller and the DOM region it owns as an explicit state record `St`, and
each operation (`fetchCart`, `addItem`, `updateItem`, `removeItem`, the
drawer `openDrawer`/`closeDrawer`/`toggle`, the event handlers) as a pure
function from the state (plus the environment-supplied response of the HTTP
boundary) to the new state and the value the promise resolves with.

JavaScript numbers reaching the quantity paths are integers produced by
`parseInt` or `NaN`; we model them as `Option Int` with `none` standing for
`NaN`.  Money amounts are integer minor units; `(cents / 100).toFixed(2)` is
modelled by its exact decimal semantics, which agrees with IEEE evaluation on
the whole range the program uses.
-/

namespace CartJS

/-- One line item of the cart JSON, the fields `cart.js` reads. -/
structure LineItem where
  key : String
  variant_id : String
  quantity : Nat
  title : String
  product_title : String
  variant_title : String
  final_line_price : Int
  image : Option String
  url : String
deriving DecidableEq, Repr

/-- The cart JSON, the fields `cart.js` reads. -/
structure Cart where
  item_count : Nat
  total_price : Int
  items : List LineItem
deriving DecidableEq, Repr

/-- A JavaScript number on the quantity paths: an integer, or `none` for `NaN`. -/
abbrev JSNum := Option Int

/-- Decimal digit character for a digit value; values above nine render as the
digit nine (never reached on the digit range). -/
def digCh (n : Nat) : Char :=
  match n with
  | 0 => '0' | 1 => '1' | 2 => '2' | 3 => '3' | 4 => '4'
  | 5 => '5' | 6 => '6' | 7 => '7' | 8 => '8' | _ => '9'

/-- Fuel-driven most-significant-first decimal digit rendering of a natural
number, the digit list of the JavaScript decimal rendering of an integer. -/
def natReprAux (fuel n : Nat) : List Char :=
  match fuel with
  | 0 => []
  | f + 1 =>
    if n < 10 then [digCh n]
    else natReprAux f (n / 10) ++ [digCh (n % 10)]

/-- JavaScript decimal rendering of a natural number (`String(n)`). -/
def natStr (n : Nat) : String :=
  String.mk (natReprAux (n + 1) n)

/-- Two-digit zero-padded rendering used for the fractional part of
`toFixed(2)`. -/
def pad2 (n : Nat) : String :=
  if n < 10 then "0" ++ natStr n else natStr n

/-- `formatMoney(cents)` from `cart.js`: the exact decimal semantics of
`"$" + (cents / 100).toFixed(2)` for an integer `cents`. -/
def formatMoney (cents : Int) : String :=
  "$" ++ (if cents < 0 then "-" else "")
      ++ natStr (cents.natAbs / 100) ++ "." ++ pad2 (cents.natAbs % 100)

/-- Numeric value of a most-significant-first decimal digit list. -/
def digitsValN (l : List Char) : Nat :=
  l.foldl (fun a c => a * 10 + (c.toNat - 48)) 0

/-- Read a money string shaped as the specification describes the output of
`formatMoney`: a dollar-sign prefix, then an optional minus sign, an integer
part, a decimal point and exactly two fractional digits; the value is the
signed total number of minor units.  Used only to state the round-trip
property of `formatMoney`. -/
def readMoneyBody (l : List Char) : Option Nat :=
  match l.takeWhile Char.isDigit, l.dropWhile Char.isDigit with
  | [], _ => none
  | _ :: _, c :: d1 :: d2 :: [] =>
    if c = '.' ∧ d1.isDigit ∧ d2.isDigit then
      some (digitsValN (l.takeWhile Char.isDigit) * 100
        + ((d1.toNat - 48) * 10 + (d2.toNat - 48)))
    else none
  | _, _ => none

/-- Read an optionally negated money body; see `readMoneyBody`. -/
def readMoneySigned (l : List Char) : Option Int :=
  match l with
  | [] => none
  | c :: rest =>
    if c = '-' then (readMoneyBody rest).map (fun n => -(n : Int))
    else (readMoneyBody (c :: rest)).map (fun n => (n : Int))

/-- Read back a formatted money string; see `readMoneyBody`. -/
def readMoney (s : String) : Option Int :=
  match s.data with
  | [] => none
  | c :: rest => if c = '$' then readMoneySigned rest else none

/-- JavaScript whitespace accepted by `parseInt` before the number. -/
def isJSWhitespace (c : Char) : Bool :=
  c = ' ' || c = '\t' || c = '\n' || c = '\r' || c = '\x0b' || c = '\x0c'

/-- `parseInt(s, 10)`: skip leading whitespace, optional sign, then the
longest prefix of decimal digits (trailing characters ignored); `none`
(that is, `NaN`) when no digit is found. -/
def parseIntJS (s : String) : JSNum :=
  let cs := s.data.dropWhile isJSWhitespace
  let signAndRest : Int × List Char :=
    match cs with
    | '-' :: rest => (-1, rest)
    | '+' :: rest => (1, rest)
    | rest => (1, rest)
  let digits := signAndRest.2.takeWhile Char.isDigit
  if digits.isEmpty then none
  else some (signAndRest.1 * (digitsValN digits : Int))

/-- The data-bearing content of one rendered line-item block produced by
`renderItem` (the attributes and texts the markup template interpolates). -/
structure RenderedItem where
  key : String
  imageSrc : Option String
  product_title : String
  variantTitleShown : Option String
  priceText : String
  quantityValue : Nat
deriving DecidableEq, Repr

/-- One count-badge element (`[data-cart-count]`): its text content and
whether its `display` style leaves it visible. -/
structure Badge where
  text : String
  visible : Bool
deriving DecidableEq, Repr

/-- A request issued to the cart HTTP boundary. -/
inductive Req where
  | getCart
  | postAdd (variantId : String) (quantity : JSNum)
      (properties : List (String × String))
  | postChange (key : String) (quantity : JSNum)
deriving DecidableEq, Repr

/-- A log entry for one issued request.  `inFlightFlag` is ghost
instrumentation recording the value of `isUpdating` at the moment the
request was issued, so that the guarantee that the guard flag is set before
any network call can be stated about the final state alone. -/
structure ReqRecord where
  inFlightFlag : Bool
  req : Req
deriving DecidableEq, Repr

/-- A custom event dispatched on the document. -/
inductive CartEvent where
  | itemAdded (variantId : String) (quantity : JSNum) (cart : Option Cart)
  | updated (cart : Cart)
deriving DecidableEq, Repr

/-- The controller state together with the DOM region it owns and an
observation log (toasts, events, requests, console errors).  DOM elements the
constructor may fail to find are `Option`-valued; `docNodes`, `active` and
`focusables` model the document nodes used by the focus logic as opaque
identifiers. -/
structure St where
  drawerExists : Bool
  isOpen : Bool
  isUpdating : Bool
  loadingClass : Bool
  ariaHidden : Bool
  overlayVisible : Option Bool
  bodyDrawerOpen : Bool
  bodyFixed : Bool
  scrollY : Nat
  savedScroll : Nat
  drawerNode : Nat
  lastActive : Option Nat
  active : Option Nat
  docNodes : List Nat
  cartToggleEl : Option Nat
  focusables : List Nat
  badges : List Badge
  subtotal : Option String
  emptyContent : Option (Bool × Bool)
  items : Option (List RenderedItem)
  toasts : List String
  events : List CartEvent
  requests : List ReqRecord
  consoleErrors : List String
deriving DecidableEq, Repr

/-- `getSizedImage(url, size)`: replace the first occurrence of an
underscore, optionally followed by one of the platform size words, directly
followed by a dot, with an underscore, the requested size and a dot; the
empty string when `url` is empty. -/
def sizeWords : List String :=
  ["pico", "icon", "thumb", "small", "compact", "medium", "large",
   "grande", "original", "master"]

/-- Match the pattern of `getSizedImage` at the head of `l`, returning the
number of characters it consumes. -/
def sizeMatchAt (l : List Char) : Option Nat :=
  match l with
  | '_' :: rest =>
    match sizeWords.filter
        (fun w => (w.data ++ ['.']).isPrefixOf rest) with
    | w :: _ => some (1 + w.length + 1)
    | [] =>
      match rest with
      | '.' :: _ => some 2
      | _ => none
  | _ => none

/-- Leftmost-first replacement scan for `getSizedImage`. -/
def sizedReplace (size : String) : List Char → List Char
  | [] => []
  | c :: rest =>
    match sizeMatchAt (c :: rest) with
    | some k => '_' :: (size.data ++ '.' :: (c :: rest).drop k)
    | none => c :: sizedReplace size rest

/-- `getSizedImage` from `cart.js`. -/
def getSizedImage (url : String) (size : String) : String :=
  if url = "" then ""
  else String.mk (sizedReplace size url.data)

/-- `renderItem(item)` from `cart.js`, as the data its markup interpolates:
the sized image (placeholder when absent), the product title, the variant
title suppressed when empty or the platform sentinel, the formatted line
price and the quantity input value. -/
def renderItem (item : LineItem) : RenderedItem :=
  { key := item.key
    imageSrc := item.image.map (fun u => getSizedImage u "120x")
    product_title := item.product_title
    variantTitleShown :=
      if item.variant_title ≠ "" ∧ item.variant_title ≠ "Default Title" then
        some item.variant_title
      else none
    priceText := formatMoney item.final_line_price
    quantityValue := item.quantity }

/-- `renderCart(cart)` from `cart.js`: update every count badge with
`item_count` (hidden unless positive), the subtotal with the formatted
`total_price`, toggle the empty/content regions on `item_count`, and replace
the items container content wholesale. -/
def renderCart (s : St) (cart : Cart) : St :=
  let s := { s with badges := s.badges.map (fun _ =>
    { text := natStr cart.item_count
      visible := decide (0 < cart.item_count) }) }
  let s := { s with
    subtotal := s.subtotal.map (fun _ => formatMoney cart.total_price) }
  let s := { s with emptyContent := s.emptyContent.map (fun _ =>
    if cart.item_count = 0 then (true, false) else (false, true)) }
  { s with items := s.items.map (fun _ => cart.items.map renderItem) }

/-- `setLoading(loading)` from `cart.js`: toggles the loading class on the
drawer when it exists. -/
def setLoading (s : St) (loading : Bool) : St :=
  if s.drawerExists then { s with loadingClass := loading } else s

/-- `showError(message)` from `cart.js`: appends a transient toast to the
document (its later automatic dismissal is not modelled). -/
def showError (s : St) (message : String) : St :=
  { s with toasts := s.toasts ++ [message] }

/-- Issue a request to the boundary, logging it together with the current
value of the `isUpdating` guard flag. -/
def issue (s : St) (r : Req) : St :=
  { s with requests := s.requests ++ [⟨s.isUpdating, r⟩] }

/-- Log a console error. -/
def logError (s : St) (msg : String) : St :=
  { s with consoleErrors := s.consoleErrors ++ [msg] }

/-- `open()` from `cart.js`: no-op without a drawer element; otherwise record
the focused element, mark the drawer open, show the overlay, mark the body,
lock scroll, clear `aria-hidden`, and focus the first focusable element,
falling back to the drawer root. -/
def openDrawer (s : St) : St :=
  if s.drawerExists then
    { s with
      lastActive := s.active
      isOpen := true
      overlayVisible := s.overlayVisible.map (fun _ => true)
      bodyDrawerOpen := true
      savedScroll := s.scrollY
      bodyFixed := true
      ariaHidden := false
      active := some (s.focusables.headD s.drawerNode) }
  else s

/-- `close()` from `cart.js`: no-op without a drawer element; otherwise mark
the drawer closed, hide the overlay, unmark the body, set `aria-hidden`,
unlock scroll restoring the captured offset, and restore focus to the
previously focused element when it is still in the document, else to the
toggle trigger. -/
def closeDrawer (s : St) : St :=
  if s.drawerExists then
    let target : Option Nat :=
      match s.lastActive with
      | some el => if el ∈ s.docNodes then some el else s.cartToggleEl
      | none => s.cartToggleEl
    { s with
      isOpen := false
      overlayVisible := s.overlayVisible.map (fun _ => false)
      bodyDrawerOpen := false
      ariaHidden := true
      bodyFixed := false
      scrollY := s.savedScroll
      active := match target with | some el => some el | none => s.active }
  else s

/-- `toggle()` from `cart.js`. -/
def toggle (s : St) : St :=
  if s.isOpen then closeDrawer s else openDrawer s

/-- `fetchCart()` from `cart.js`.  `resp` is the boundary outcome: `some
cart` when the request succeeds with a parsable cart body, `none` when the
request rejects, the status is non-success, or the body is unparsable; every
failure lands in the catch, which logs and resolves `null` without touching
the DOM. -/
def fetchCart (s : St) (resp : Option Cart) : St × Option Cart :=
  let s := issue s .getCart
  match resp with
  | some cart => (renderCart s cart, some cart)
  | none => (logError s "Cart fetch error", none)

/-- Body of a non-success `/cart/add.js` response: it either fails to parse
(`parseFail parseMsg`, where `parseMsg` is the rejection message of
`response.json()`) or parses to an object whose `description` field is the
given optional string. -/
inductive AddBody where
  | parseFail (parseMsg : String)
  | parsed (description : Option String)
deriving DecidableEq, Repr

/-- Boundary outcome of the `/cart/add.js` POST.  `netError msg` is a fetch
rejection whose error message is `msg`; `errStatus body` is a non-success
status with the given body. -/
inductive AddResponse where
  | netError (msg : String)
  | ok
  | errStatus (body : AddBody)
deriving DecidableEq, Repr

/-- The message `addItem` throws for a non-success status: the parsed
`description` when present and non-empty (`||` treats the empty string as
falsy), the generic message when the field is absent or empty, and the parse
rejection message itself when the body is unparsable. -/
def addErrorMessage (body : AddBody) : String :=
  match body with
  | .parseFail parseMsg => parseMsg
  | .parsed (some d) => if d = "" then "Failed to add item" else d
  | .parsed none => "Failed to add item"

/-- `addItem(variantId, quantity, properties)` from `cart.js`.  Guarded by
`isUpdating`; on success performs the follow-up `fetchCart` (whose boundary
outcome is `fetchResp`), opens the drawer, dispatches `cart:item-added` and
resolves with the fetched cart; on failure logs, shows a toast and resolves
`null`; the finally block clears the flag and the loading class. -/
def addItem (s : St) (variantId : String) (quantity : JSNum)
    (properties : List (String × String)) (resp : AddResponse)
    (fetchResp : Option Cart) : St × Option Cart :=
  if s.isUpdating then (s, none)
  else
    let s := { s with isUpdating := true }
    let s := setLoading s true
    let s := issue s (.postAdd variantId quantity properties)
    let finish : St → Option Cart → St × Option Cart := fun s r =>
      (setLoading { s with isUpdating := false } false, r)
    match resp with
    | .netError msg =>
      finish (showError (logError s "Add to cart error") msg) none
    | .errStatus body =>
      finish (showError (logError s "Add to cart error")
        (addErrorMessage body)) none
    | .ok =>
      let p := fetchCart s fetchResp
      let s := openDrawer p.1
      let s := { s with events :=
        s.events ++ [.itemAdded variantId quantity p.2] }
      finish s p.2

/-- Boundary outcome of the `/cart/change.js` POST: rejection, non-success
status, or success with a body that parses to a cart or fails to parse. -/
inductive ChangeResponse where
  | netError
  | errStatus
  | okBody (cart : Option Cart)
deriving DecidableEq, Repr

/-- `updateItem(key, quantity)` from `cart.js`.  Guarded by `isUpdating`; on
success renders the returned cart, dispatches `cart:updated` and resolves
with it; every failure (rejection, non-success status, unparsable body)
lands in the catch, which logs, shows the fixed toast and resolves `null`;
the finally block clears the flag and the loading class. -/
def updateItem (s : St) (key : String) (quantity : JSNum)
    (resp : ChangeResponse) : St × Option Cart :=
  if s.isUpdating then (s, none)
  else
    let s := { s with isUpdating := true }
    let s := setLoading s true
    let s := issue s (.postChange key quantity)
    let finish : St → Option Cart → St × Option Cart := fun s r =>
      (setLoading { s with isUpdating := false } false, r)
    match resp with
    | .okBody (some cart) =>
      let s := renderCart s cart
      let s := { s with events := s.events ++ [.updated cart] }
      finish s (some cart)
    | .okBody none =>
      finish (showError (logError s "Update cart error")
        "Failed to update cart") none
    | .netError =>
      finish (showError (logError s "Update cart error")
        "Failed to update cart") none
    | .errStatus =>
      finish (showError (logError s "Update cart error")
        "Failed to update cart") none

/-- `removeItem(key)` from `cart.js`: delegates to `updateItem(key, 0)`. -/
def removeItem (s : St) (key : String) (resp : ChangeResponse) :
    St × Option Cart :=
  updateItem s key (some 0) resp

/-- The quantity the stepper click handler (`handleQuantityChange` in
`cart.js`) computes before calling `updateItem`: `inputValue` is
`input?.value` of the adjacent quantity field (`none` when the field is
missing), defaulted to the string one when missing or empty (`||` treats the
empty string as falsy), parsed with `parseInt`, the delta added and the
result clamped below by zero.  `NaN` (`none`) propagates through the
addition and through `Math.max`. -/
def stepperQuantity (inputValue : Option String) (change : Int) : JSNum :=
  let raw : String :=
    match inputValue with
    | none => "1"
    | some v => if v = "" then "1" else v
  match parseIntJS raw with
  | some n => some (max 0 (n + change))
  | none => none

/-- `handleQuantityChange(button, change)` from `cart.js`: computes the new
quantity from the adjacent field and calls `updateItem` with the owning
line key. -/
def handleQuantityChange (s : St) (key : String) (inputValue : Option String)
    (change : Int) (resp : ChangeResponse) : St × Option Cart :=
  updateItem s key (stepperQuantity inputValue change) resp

/-- The quantity `handleAddToCart` in `cart.js` extracts from the form:
`parseInt(formData.get(quantity-field) || one, 10)`, where a missing field
(`null`) and the empty string are both falsy and default to one. -/
def formQuantity (field : Option String) : JSNum :=
  parseIntJS
    (match field with
     | none => "1"
     | some v => if v = "" then "1" else v)

/-- The quantity-input change handler registered in `bindEvents`: parse the
typed value and invoke `updateItem` only when the result compares at least
zero (`NaN >= 0` is false, so `none` never invokes it).  Returns the
quantity passed to `updateItem`, or `none` when the update is not invoked. -/
def quantityInputChange (value : String) : Option Int :=
  match parseIntJS value with
  | some q => if 0 ≤ q then some q else none
  | none => none

/-- The action `handleTabKey` in `cart.js` takes for a Tab key event:
suppress the key when the drawer holds no focusable element; wrap focus to
the last element for Shift+Tab on the first; wrap focus to the first element
for plain Tab on the last; otherwise leave the event to the browser default.
Elements are opaque node identifiers; `active` is `document.activeElement`. -/
inductive TabAction where
  | suppress
  | focusTo (el : Nat)
  | browserDefault
deriving DecidableEq, Repr

/-- `handleTabKey(e)` from `cart.js`; see `TabAction`. -/
def handleTabKey (focusable : List Nat) (active : Nat) (shift : Bool) :
    TabAction :=
  match focusable with
  | [] => .suppress
  | f :: rest =>
    let first := f
    let last := (f :: rest).getLast (by simp)
    if shift ∧ active = first then .focusTo last
    else if ¬shift ∧ active = last then .focusTo first
    else .browserDefault

/-- One Tab key press while focus is inside the open drawer: the handler
action when it intervenes, composed with the browser default — advancing to
the adjacent element of the drawer's focus order — when it does not.  The
default step models the environment (the user agent's sequential focus
navigation over the drawer's focusable elements). -/
def tabStep (focusable : List Nat) (active : Nat) (shift : Bool) : Nat :=
  match handleTabKey focusable active shift with
  | .suppress => active
  | .focusTo el => el
  | .browserDefault =>
    let i := focusable.indexOf active
    if shift then focusable.getD (i - 1) active
    else focusable.getD (i + 1) active

/-- One call of a C7 open/close sequence: `true` is `open()`, `false` is
`close()`. -/
def drawerCall (s : St) (c : Bool) : St :=
  if c then openDrawer s else closeDrawer s

/-- A concrete page with the full markup contract, idle controller, closed
drawer, used to instantiate the universally quantified theorems. -/
def baseSt : St :=
  { drawerExists := true
    isOpen := false
    isUpdating := false
    loadingClass := false
    ariaHidden := true
    overlayVisible := some false
    bodyDrawerOpen := false
    bodyFixed := false
    scrollY := 0
    savedScroll := 0
    drawerNode := 100
    lastActive := none
    active := some 1
    docNodes := [1, 2, 100]
    cartToggleEl := some 2
    focusables := [3, 4]
    badges := [{ text := "", visible := true }]
    subtotal := some ""
    emptyContent := some (true, false)
    items := some []
    toasts := []
    events := []
    requests := []
    consoleErrors := [] }

/-- `baseSt` with a mutating request already in flight. -/
def busySt : St :=
  { baseSt with isUpdating := true }

/-- The cart of the end-to-end scenario in the specification: two units,
four thousand minor units total. -/
def demoCart : Cart :=
  { item_count := 2
    total_price := 4000
    items :=
      [{ key := "line1"
         variant_id := "40912345"
         quantity := 2
         title := "Tee"
         product_title := "Tee"
         variant_title := "Default Title"
         final_line_price := 4000
         image := none
         url := "/products/tee" }] }

/-! ## Theorems -/

/-- `drawerCall` never changes whether the drawer element exists. -/
theorem drawerCall_drawerExists (s : St) (c : Bool) :
    (drawerCall s c).drawerExists = s.drawerExists := by
  cases c <;> unfold drawerCall openDrawer closeDrawer <;> simp <;> split <;> rfl

/-- A whole open/close sequence never changes whether the drawer element
exists. -/
theorem foldl_drawerCall_drawerExists (calls : List Bool) (s : St) :
    (calls.foldl drawerCall s).drawerExists = s.drawerExists := by
  induction calls generalizing s with
  | nil => rfl
  | cons c rest ih => rw [List.foldl_cons, ih, drawerCall_drawerExists]

/-- When the drawer element exists, `open()` leaves the drawer open and
`close()` leaves it closed. -/
theorem drawerCall_isOpen (s : St) (c : Bool) (h : s.drawerExists = true) :
    (drawerCall s c).isOpen = c := by
  cases c <;> simp [drawerCall, openDrawer, closeDrawer, h]

/-- C7: for every sequence of `open()`/`close()` calls on a controller whose
drawer element exists, the open state after the sequence is the intent of
the most recent call; `open()` and `close()` are idempotent on the open
state, and `toggle()` maps a closed drawer through `open()` and an open
drawer through `close()`. -/
theorem C7_open_close_last_call_wins :
    (∀ s : St, s.drawerExists = true →
      (openDrawer s).isOpen = true ∧ (openDrawer (openDrawer s)).isOpen = true) ∧
    (∀ s : St, s.drawerExists = true →
      (closeDrawer s).isOpen = false ∧
      (closeDrawer (closeDrawer s)).isOpen = false) ∧
    (∀ s : St, s.isOpen = false → toggle s = openDrawer s) ∧
    (∀ s : St, s.isOpen = true → toggle s = closeDrawer s) ∧
    (∀ (s : St) (calls : List Bool) (h : calls ≠ []),
      s.drawerExists = true →
      (calls.foldl drawerCall s).isOpen = calls.getLast h) := by
  refine ⟨?_, ?_, ?_, ?_, ?_⟩
  · intro s h
    have h2 : (openDrawer s).drawerExists = true := by
      simpa [drawerCall] using (drawerCall_drawerExists s true).trans h
    exact ⟨by simpa [drawerCall] using drawerCall_isOpen s true h,
      by simpa [drawerCall] using drawerCall_isOpen (openDrawer s) true h2⟩
  · intro s h
    have h2 : (closeDrawer s).drawerExists = true := by
      simpa [drawerCall] using (drawerCall_drawerExists s false).trans h
    exact ⟨by simpa [drawerCall] using drawerCall_isOpen s false h,
      by simpa [drawerCall] using drawerCall_isOpen (closeDrawer s) false h2⟩
  · intro s h; simp [toggle, h]
  · intro s h; simp [toggle, h]
  · intro s calls h hD
    induction calls using List.reverseRecOn generalizing s with
    | nil => exact absurd rfl h
    | append_singleton l b _ =>
      rw [List.foldl_append, List.foldl_cons, List.foldl_nil,
        List.getLast_append_singleton]
      exact drawerCall_isOpen _ b ((foldl_drawerCall_drawerExists l s).trans hD)

/-- C7 witness at a concrete controller: two calls of `open()` leave the
drawer open, the sequence close-open-close leaves it closed, and `toggle()`
on the closed fixture opens it. -/
theorem C7_witness :
    (openDrawer (openDrawer baseSt)).isOpen = true ∧
    (([false, true, false].foldl drawerCall baseSt).isOpen = false) ∧
    toggle baseSt = openDrawer baseSt :=
  ⟨(C7_open_close_last_call_wins.1 baseSt rfl).2,
   C7_open_close_last_call_wins.2.2.2.2 baseSt [false, true, false]
     (by decide) rfl,
   C7_open_close_last_call_wins.2.2.1 baseSt rfl⟩

/-- C9: `removeItem(key)` is extensionally `updateItem(key, 0)`: for every
controller state, key and boundary outcome it performs the same state
transition and resolves with the same result. -/
theorem C9_removeItem_is_updateItem_zero :
    ∀ (s : St) (key : String) (resp : ChangeResponse),
      removeItem s key resp = updateItem s key (some 0) resp :=
  fun _ _ _ => rfl

/-- C1: every mutating operation is guarded by the in-flight flag.  While
the flag is set, the call is a pure no-op: it resolves immediately, issues
no request and leaves the whole state (controller and DOM) untouched.
Otherwise, every request issued during the call is logged with the flag
already set (the flag is set before the network call), and the flag is
cleared when the call completes, on the success path and on every failure
path alike. -/
theorem C1_mutation_guard :
    (∀ (s : St) v q p r f, s.isUpdating = true → addItem s v q p r f = (s, none)) ∧
    (∀ (s : St) k q r, s.isUpdating = true → updateItem s k q r = (s, none)) ∧
    (∀ (s : St) k r, s.isUpdating = true → removeItem s k r = (s, none)) ∧
    (∀ (s : St) v q p r f, s.isUpdating = false →
      (addItem s v q p r f).1.isUpdating = false ∧
      ∀ rec ∈ ((addItem s v q p r f).1.requests.drop s.requests.length),
        rec.inFlightFlag = true) ∧
    (∀ (s : St) k q r, s.isUpdating = false →
      (updateItem s k q r).1.isUpdating = false ∧
      ∀ rec ∈ ((updateItem s k q r).1.requests.drop s.requests.length),
        rec.inFlightFlag = true) ∧
    (∀ (s : St) k r, s.isUpdating = false →
      (removeItem s k r).1.isUpdating = false ∧
      ∀ rec ∈ ((removeItem s k r).1.requests.drop s.requests.length),
        rec.inFlightFlag = true) := by
  refine ⟨?_, ?_, ?_, ?_, ?_, ?_⟩
  · intro s v q p r f h; simp [addItem, h]
  · intro s k q r h; simp [updateItem, h]
  · intro s k r h; simp [removeItem, updateItem, h]
  · intro s v q p r f h
    cases r <;> cases f <;>
      simp [addItem, h, setLoading, issue, showError, logError, fetchCart,
        renderCart, openDrawer, List.drop_left] <;>
      split <;> simp_all
  · intro s k q r h
    rcases r with _ | _ | (_ | c) <;>
      simp [updateItem, h, setLoading, issue, showError, logError,
        renderCart, List.drop_left] <;>
      split <;> simp_all
  · intro s k r h
    rcases r with _ | _ | (_ | c) <;>
      simp [removeItem, updateItem, h, setLoading, issue, showError,
        logError, renderCart, List.drop_left] <;>
      split <;> simp_all

/-- C1 witness at concrete states: a busy controller drops an `addItem` and
an `updateItem` untouched, and an idle controller ends an `updateItem`
failure with the flag cleared and the change request logged as issued with
the flag set. -/
theorem C1_witness :
    addItem busySt "40912345" (some 2) [] .ok (some demoCart)
      = (busySt, none) ∧
    updateItem busySt "line1" (some 0) .netError = (busySt, none) ∧
    (updateItem baseSt "line1" (some 3) .netError).1.isUpdating = false ∧
    ∀ rec ∈ ((updateItem baseSt "line1" (some 3) .netError).1.requests.drop
      baseSt.requests.length), rec.inFlightFlag = true :=
  ⟨C1_mutation_guard.1 busySt "40912345" (some 2) [] .ok (some demoCart) rfl,
   C1_mutation_guard.2.1 busySt "line1" (some 0) .netError rfl,
   (C1_mutation_guard.2.2.2.2.1 baseSt "line1" (some 3) .netError rfl).1,
   (C1_mutation_guard.2.2.2.2.1 baseSt "line1" (some 3) .netError rfl).2⟩

/-- C2 counterexample: a failing `fetchCart` is NOT surfaced via a toast;
the promise resolves to `null` but the toast list stays empty, refuting the
claim that every failing operation against the cart HTTP boundary shows a
toast notification. -/
theorem C2_counterexample :
    baseSt.toasts = [] ∧
    (fetchCart baseSt none).2 = none ∧
    (fetchCart baseSt none).1.toasts = [] :=
  ⟨rfl, rfl, rfl⟩

/-- C2 amended: failing mutating operations (`addItem`, `updateItem`,
`removeItem`) surface a toast, resolve to `null` and leave the drawer state
and the rendered DOM otherwise unchanged; a failing `fetchCart` also
resolves to `null` with drawer state and DOM unchanged, but logs to the
console only and shows no toast. -/
theorem C2_failure_boundary :
    (∀ (s : St) v q p r f, s.isUpdating = false → r ≠ AddResponse.ok →
      (addItem s v q p r f).2 = none ∧
      (∃ m, (addItem s v q p r f).1.toasts = s.toasts ++ [m]) ∧
      (addItem s v q p r f).1.isOpen = s.isOpen ∧
      (addItem s v q p r f).1.badges = s.badges ∧
      (addItem s v q p r f).1.subtotal = s.subtotal ∧
      (addItem s v q p r f).1.items = s.items ∧
      (addItem s v q p r f).1.emptyContent = s.emptyContent) ∧
    (∀ (s : St) k q r, s.isUpdating = false →
      (r = ChangeResponse.netError ∨ r = ChangeResponse.errStatus ∨
        r = ChangeResponse.okBody none) →
      (updateItem s k q r).2 = none ∧
      (updateItem s k q r).1.toasts = s.toasts ++ ["Failed to update cart"] ∧
      (updateItem s k q r).1.isOpen = s.isOpen ∧
      (updateItem s k q r).1.badges = s.badges ∧
      (updateItem s k q r).1.subtotal = s.subtotal ∧
      (updateItem s k q r).1.items = s.items ∧
      (updateItem s k q r).1.emptyContent = s.emptyContent) ∧
    (∀ (s : St) k r, s.isUpdating = false →
      (r = ChangeResponse.netError ∨ r = ChangeResponse.errStatus ∨
        r = ChangeResponse.okBody none) →
      (removeItem s k r).2 = none ∧
      (removeItem s k r).1.toasts = s.toasts ++ ["Failed to update cart"]) ∧
    (∀ (s : St),
      (fetchCart s none).2 = none ∧
      (fetchCart s none).1.toasts = s.toasts ∧
      (fetchCart s none).1.isOpen = s.isOpen ∧
      (fetchCart s none).1.badges = s.badges ∧
      (fetchCart s none).1.subtotal = s.subtotal ∧
      (fetchCart s none).1.items = s.items ∧
      (fetchCart s none).1.emptyContent = s.emptyContent) := by
  refine ⟨?_, ?_, ?_, ?_⟩
  · intro s v q p r f h hr
    cases r with
    | ok => exact absurd rfl hr
    | netError m =>
      refine ⟨?_, ⟨m, ?_⟩, ?_, ?_, ?_, ?_, ?_⟩ <;>
        simp [addItem, h, setLoading, issue, showError, logError] <;>
        split <;> simp_all
    | errStatus body =>
      refine ⟨?_, ⟨addErrorMessage body, ?_⟩, ?_, ?_, ?_, ?_, ?_⟩ <;>
        simp [addItem, h, setLoading, issue, showError, logError] <;>
        split <;> simp_all
  · intro s k q r h hr
    rcases hr with rfl | rfl | rfl <;>
      refine ⟨?_, ?_, ?_, ?_, ?_, ?_, ?_⟩ <;>
      simp [updateItem, h, setLoading, issue, showError, logError] <;>
      split <;> simp_all
  · intro s k r h hr
    rcases hr with rfl | rfl | rfl <;>
      refine ⟨?_, ?_⟩ <;>
      simp [removeItem, updateItem, h, setLoading, issue, showError,
        logError] <;>
      split <;> simp_all
  · intro s
    refine ⟨?_, ?_, ?_, ?_, ?_, ?_, ?_⟩ <;> simp [fetchCart, issue, logError]

/-- C2 witness at a concrete controller: a rejected `updateItem` resolves to
`null`, appends exactly the fixed toast and leaves the drawer closed, and a
rejected `fetchCart` resolves to `null` with no toast. -/
theorem C2_witness :
    (updateItem baseSt "line1" (some 2) .netError).2 = none ∧
    (updateItem baseSt "line1" (some 2) .netError).1.toasts
      = ["Failed to update cart"] ∧
    (updateItem baseSt "line1" (some 2) .netError).1.isOpen = false ∧
    (fetchCart baseSt none).1.toasts = [] ∧
    (fetchCart baseSt none).2 = none :=
  ⟨(C2_failure_boundary.2.1 baseSt "line1" (some 2) .netError rfl
      (Or.inl rfl)).1,
   (C2_failure_boundary.2.1 baseSt "line1" (some 2) .netError rfl
      (Or.inl rfl)).2.1,
   (C2_failure_boundary.2.1 baseSt "line1" (some 2) .netError rfl
      (Or.inl rfl)).2.2.1,
   (C2_failure_boundary.2.2.2 baseSt).2.1,
   (C2_failure_boundary.2.2.2 baseSt).1⟩

/-- C3: a successful `addItem` whose follow-up fetch returns a cart resolves
with that cart, opens the drawer, dispatches `cart:item-added` carrying the
variant id, the quantity and the cart, issues the add POST followed by the
cart GET, and re-renders the panel: every count badge shows `item_count`
and is hidden exactly when the count is zero, the subtotal shows the
formatted `total_price`, and the items list is rebuilt from the cart. -/
theorem C3_addItem_success :
    ∀ (s : St) v q p (cart : Cart), s.isUpdating = false →
      s.drawerExists = true →
      (addItem s v q p .ok (some cart)).2 = some cart ∧
      (addItem s v q p .ok (some cart)).1.isOpen = true ∧
      (addItem s v q p .ok (some cart)).1.events
        = s.events ++ [CartEvent.itemAdded v q (some cart)] ∧
      (addItem s v q p .ok (some cart)).1.requests
        = s.requests ++ [⟨true, .postAdd v q p⟩, ⟨true, .getCart⟩] ∧
      (∀ b ∈ (addItem s v q p .ok (some cart)).1.badges,
        b.text = natStr cart.item_count ∧
        (b.visible = true ↔ 0 < cart.item_count)) ∧
      (∀ t, s.subtotal = some t →
        (addItem s v q p .ok (some cart)).1.subtotal
          = some (formatMoney cart.total_price)) ∧
      (addItem s v q p .ok (some cart)).1.items
        = s.items.map (fun _ => cart.items.map renderItem) := by
  intro s v q p cart h hD
  refine ⟨?_, ?_, ?_, ?_, ?_, ?_, ?_⟩ <;>
    simp [addItem, h, hD, setLoading, issue, showError, logError, fetchCart,
      renderCart, openDrawer]
  all_goals first
  | rfl
  | (intro b hb; rcases List.mem_map.1 hb with ⟨x, _, rfl⟩; simp)
  | (intro t ht; simp [ht])

/-- C3 witness, the end-to-end scenario of the specification: adding variant
40912345 with quantity two against a boundary returning a cart of two items
and four thousand minor units opens the drawer, dispatches the item-added
event, sets the badge to the string two and the subtotal to forty dollars,
and resolves with the cart. -/
theorem C3_witness :
    (addItem baseSt "40912345" (some 2) [] .ok (some demoCart)).2
      = some demoCart ∧
    (addItem baseSt "40912345" (some 2) [] .ok (some demoCart)).1.isOpen
      = true ∧
    (addItem baseSt "40912345" (some 2) [] .ok (some demoCart)).1.events
      = [CartEvent.itemAdded "40912345" (some 2) (some demoCart)] ∧
    (addItem baseSt "40912345" (some 2) [] .ok (some demoCart)).1.badges
      = [{ text := "2", visible := true }] ∧
    (addItem baseSt "40912345" (some 2) [] .ok (some demoCart)).1.subtotal
      = some "$40.00" :=
  ⟨(C3_addItem_success baseSt "40912345" (some 2) [] demoCart rfl rfl).1,
   (C3_addItem_success baseSt "40912345" (some 2) [] demoCart rfl rfl).2.1,
   (C3_addItem_success baseSt "40912345" (some 2) [] demoCart rfl rfl).2.2.1,
   by decide,
   ((C3_addItem_success baseSt "40912345" (some 2) [] demoCart rfl
      rfl).2.2.2.2.2.1 "" rfl).trans (by decide)⟩

/-- C4 counterexample: when the non-success add response carries an
unparsable body, the toast is the parse failure message itself, not the
generic default the claim prescribes. -/
theorem C4_counterexample :
    (addItem baseSt "40912345" (some 1) []
      (.errStatus (.parseFail "Unexpected end of JSON input")) none).1.toasts
      = ["Unexpected end of JSON input"] ∧
    ("Unexpected end of JSON input" : String) ≠ "Failed to add item" ∧
    (addItem baseSt "40912345" (some 1) []
      (.errStatus (.parseFail "Unexpected end of JSON input")) none).2
      = none :=
  ⟨rfl, by decide, rfl⟩

/-- C4 amended: on a non-success add response the call resolves to `null`,
the drawer stays in its prior state and no item-added event fires; the toast
message is the parsed description field when it is present and non-empty,
the generic message when the field is absent or empty, and the parse
failure message itself when the body is unparsable. -/
theorem C4_addItem_error_toast :
    ∀ (s : St) v q p (body : AddBody) f, s.isUpdating = false →
      (addItem s v q p (.errStatus body) f).2 = none ∧
      (addItem s v q p (.errStatus body) f).1.isOpen = s.isOpen ∧
      (addItem s v q p (.errStatus body) f).1.events = s.events ∧
      ((∃ d, body = .parsed (some d) ∧ d ≠ "" ∧
          (addItem s v q p (.errStatus body) f).1.toasts = s.toasts ++ [d]) ∨
       ((body = .parsed none ∨ body = .parsed (some "")) ∧
          (addItem s v q p (.errStatus body) f).1.toasts
            = s.toasts ++ ["Failed to add item"]) ∨
       (∃ m, body = .parseFail m ∧
          (addItem s v q p (.errStatus body) f).1.toasts
            = s.toasts ++ [m])) := by
  intro s v q p body f h
  refine ⟨?_, ?_, ?_, ?_⟩
  · simp [addItem, h, setLoading, issue, showError, logError] <;>
      split <;> simp_all
  · simp [addItem, h, setLoading, issue, showError, logError] <;>
      split <;> simp_all
  · simp [addItem, h, setLoading, issue, showError, logError] <;>
      split <;> simp_all
  · rcases body with m | dOpt
    · refine Or.inr (Or.inr ⟨m, rfl, ?_⟩)
      simp [addItem, h, setLoading, issue, showError, logError,
        addErrorMessage] <;> split <;> simp_all
    · rcases dOpt with _ | d
      · refine Or.inr (Or.inl ⟨Or.inl rfl, ?_⟩)
        simp [addItem, h, setLoading, issue, showError, logError,
          addErrorMessage] <;> split <;> simp_all
      · by_cases hd : d = ""
        · subst hd
          refine Or.inr (Or.inl ⟨Or.inr rfl, ?_⟩)
          simp [addItem, h, setLoading, issue, showError, logError,
            addErrorMessage] <;> split <;> simp_all
        · refine Or.inl ⟨d, rfl, hd, ?_⟩
          simp [addItem, h, setLoading, issue, showError, logError,
            addErrorMessage, hd] <;> split <;> simp_all

/-- C4 witness, the sold-out scenario of the specification: a non-success
add response whose body parses with description Sold out resolves to
`null`, shows the toast Sold out, keeps the drawer closed and fires no
event. -/
theorem C4_witness :
    (addItem baseSt "40912345" (some 1) []
      (.errStatus (.parsed (some "Sold out"))) none).2 = none ∧
    (addItem baseSt "40912345" (some 1) []
      (.errStatus (.parsed (some "Sold out"))) none).1.toasts
      = ["Sold out"] ∧
    (addItem baseSt "40912345" (some 1) []
      (.errStatus (.parsed (some "Sold out"))) none).1.isOpen = false ∧
    (addItem baseSt "40912345" (some 1) []
      (.errStatus (.parsed (some "Sold out"))) none).1.events = [] :=
  ⟨(C4_addItem_error_toast baseSt "40912345" (some 1) []
      (.parsed (some "Sold out")) none rfl).1,
   by decide,
   (C4_addItem_error_toast baseSt "40912345" (some 1) []
      (.parsed (some "Sold out")) none rfl).2.1,
   (C4_addItem_error_toast baseSt "40912345" (some 1) []
      (.parsed (some "Sold out")) none rfl).2.2.1⟩

/-- C10: when the add POST succeeds but the follow-up cart fetch fails,
`addItem` still opens the drawer and still dispatches `cart:item-added`,
but with `null` as the cart payload; it resolves to `null`, shows no toast,
and the rendered panel (badges, subtotal, items, empty-state toggle) keeps
the stale pre-add contents. -/
theorem C10_add_success_fetch_failure :
    ∀ (s : St) v q p, s.isUpdating = false → s.drawerExists = true →
      (addItem s v q p .ok none).2 = none ∧
      (addItem s v q p .ok none).1.isOpen = true ∧
      (addItem s v q p .ok none).1.events
        = s.events ++ [CartEvent.itemAdded v q none] ∧
      (addItem s v q p .ok none).1.badges = s.badges ∧
      (addItem s v q p .ok none).1.subtotal = s.subtotal ∧
      (addItem s v q p .ok none).1.items = s.items ∧
      (addItem s v q p .ok none).1.emptyContent = s.emptyContent ∧
      (addItem s v q p .ok none).1.toasts = s.toasts := by
  intro s v q p h hD
  refine ⟨?_, ?_, ?_, ?_, ?_, ?_, ?_, ?_⟩ <;>
    simp [addItem, h, hD, setLoading, issue, showError, logError, fetchCart,
      renderCart, openDrawer]

/-- C10 witness at a concrete controller: the add succeeds, the fetch fails,
the drawer opens, the event fires with a `null` cart, and the badge list is
untouched. -/
theorem C10_witness :
    (addItem baseSt "40912345" (some 1) [] .ok none).2 = none ∧
    (addItem baseSt "40912345" (some 1) [] .ok none).1.isOpen = true ∧
    (addItem baseSt "40912345" (some 1) [] .ok none).1.events
      = [CartEvent.itemAdded "40912345" (some 1) none] ∧
    (addItem baseSt "40912345" (some 1) [] .ok none).1.badges
      = baseSt.badges :=
  ⟨(C10_add_success_fetch_failure baseSt "40912345" (some 1) [] rfl rfl).1,
   (C10_add_success_fetch_failure baseSt "40912345" (some 1) [] rfl rfl).2.1,
   (C10_add_success_fetch_failure baseSt "40912345" (some 1) [] rfl
      rfl).2.2.1,
   (C10_add_success_fetch_failure baseSt "40912345" (some 1) [] rfl
      rfl).2.2.2.1⟩

/-- C5 counterexample: a non-empty unparsable quantity value is NOT
defaulted to one: the stepper passes `NaN` through to `updateItem` instead
of the claimed clamped default, and the add-to-cart handler likewise yields
`NaN` rather than one. -/
theorem C5_counterexample :
    stepperQuantity (some "abc") 1 ≠ some (max 0 (1 + 1)) ∧
    stepperQuantity (some "abc") 1 = none ∧
    formQuantity (some "abc") ≠ some 1 ∧
    formQuantity (some "abc") = none :=
  ⟨by decide, by decide, by decide, by decide⟩

/-- C5 amended: the stepper defaults to one only when the quantity field is
missing or its value is the empty string; a parsable value has the delta
added and the result clamped below by zero, and the handler always calls
`updateItem` with the computed quantity; a non-empty unparsable value
propagates `NaN` unclamped.  The add-to-cart handler likewise defaults a
missing or empty quantity to one and passes an unparsable value through as
`NaN`. -/
theorem C5_quantity_parsing :
    (∀ ch : Int, stepperQuantity none ch = some (max 0 (1 + ch))) ∧
    (∀ ch : Int, stepperQuantity (some "") ch = some (max 0 (1 + ch))) ∧
    (∀ (v : String) (n ch : Int), parseIntJS v = some n →
      stepperQuantity (some v) ch = some (max 0 (n + ch))) ∧
    (∀ (v : String) (ch : Int), v ≠ "" → parseIntJS v = none →
      stepperQuantity (some v) ch = none) ∧
    (∀ (s : St) k iv ch resp,
      handleQuantityChange s k iv ch resp
        = updateItem s k (stepperQuantity iv ch) resp) ∧
    formQuantity none = some 1 ∧
    formQuantity (some "") = some 1 ∧
    (∀ v : String, v ≠ "" → formQuantity (some v) = parseIntJS v) := by
  refine ⟨?_, ?_, ?_, ?_, ?_, by decide, by decide, ?_⟩
  · intro ch
    simp [stepperQuantity, show parseIntJS "1" = some 1 from rfl]
  · intro ch
    simp [stepperQuantity, show parseIntJS "1" = some 1 from rfl]
  · intro v n ch h
    by_cases hv : v = ""
    · subst hv
      rw [show parseIntJS "" = none from rfl] at h
      exact absurd h (by simp)
    · simp [stepperQuantity, hv, h]
  · intro v ch hv h
    simp [stepperQuantity, hv, h]
  · intro s k iv ch resp; rfl
  · intro v hv
    simp [formQuantity, hv]

/-- C5 witness at concrete inputs: a missing field decrements from the
default one down to zero, a parsable five increments to six, an unparsable
value yields `NaN`, and the form handler parses a literal seven. -/
theorem C5_witness :
    stepperQuantity none (-1) = some (max 0 (1 + (-1))) ∧
    stepperQuantity (some "5") 1 = some (max 0 (5 + 1)) ∧
    stepperQuantity (some "abc") 1 = none ∧
    formQuantity (some "7") = parseIntJS "7" :=
  ⟨C5_quantity_parsing.1 (-1),
   C5_quantity_parsing.2.2.1 "5" 5 1 (by decide),
   C5_quantity_parsing.2.2.2.1 "abc" 1 (by decide) (by decide),
   C5_quantity_parsing.2.2.2.2.2.2.2 "7" (by decide)⟩

/-- Plain Tab with focus on the last focusable element wraps to the
first. -/
theorem handleTabKey_wrap_forward (f : Nat) (rest : List Nat) (active : Nat)
    (h : active = (f :: rest).getLast (by simp)) :
    handleTabKey (f :: rest) active false = .focusTo f := by
  simp [handleTabKey, h]

/-- Plain Tab with focus elsewhere is left to the browser default. -/
theorem handleTabKey_no_wrap (f : Nat) (rest : List Nat) (active : Nat)
    (h : active ≠ (f :: rest).getLast (by simp)) :
    handleTabKey (f :: rest) active false = .browserDefault := by
  simp [handleTabKey, h]

/-- Shift+Tab with focus on the first focusable element wraps to the
last. -/
theorem handleTabKey_wrap_backward (f : Nat) (rest : List Nat) :
    handleTabKey (f :: rest) f true
      = .focusTo ((f :: rest).getLast (by simp)) := by
  simp [handleTabKey]

/-- With distinct focusable elements, one plain Tab press from the element
at index `i` lands on the element at index `i + 1` modulo the cycle
length. -/
theorem tabStep_getD (l : List Nat) (hnd : l.Nodup) (i : Nat)
    (hi : i < l.length) :
    tabStep l (l.getD i 0) false = l.getD ((i + 1) % l.length) 0 := by
  rcases l with _ | ⟨f, rest⟩
  · simp at hi
  · by_cases hl : i = (f :: rest).length - 1
    · have hact : (f :: rest).getD i 0 = (f :: rest).getLast (by simp) := by
        rw [List.getD_eq_getElem _ _ hi, List.getLast_eq_getElem]
        congr 1
      have hn : (i + 1) % (f :: rest).length = 0 := by
        have hv : i + 1 = (f :: rest).length := by simp at hl ⊢; omega
        rw [hv, Nat.mod_self]
      rw [hn]
      unfold tabStep
      rw [hact, handleTabKey_wrap_forward f rest _ rfl]
      simp
    · have hlt : i + 1 < (f :: rest).length := by simp at hi hl ⊢; omega
      have hne : (f :: rest).getD i 0 ≠ (f :: rest).getLast (by simp) := by
        rw [List.getD_eq_getElem _ _ hi, List.getLast_eq_getElem]
        intro hEq
        exact hl (hnd.getElem_inj_iff.mp hEq)
      have hmod : (i + 1) % (f :: rest).length = i + 1 :=
        Nat.mod_eq_of_lt hlt
      rw [hmod]
      simp only [tabStep, handleTabKey_no_wrap f rest _ hne]
      rw [List.getD_eq_getElem _ _ hi, List.indexOf_getElem hnd i hi]
      simp only [Bool.false_eq_true, if_false]
      rw [List.getD_eq_getElem _ _ hlt, List.getD_eq_getElem _ _ hlt]

/-- Iterated plain Tab presses walk the focus cycle: `k` presses from index
`i` land on index `i + k` modulo the cycle length. -/
theorem tabStep_cycle_aux (l : List Nat) (hnd : l.Nodup) (k : Nat) :
    ∀ i, i < l.length →
      (fun a => tabStep l a false)^[k] (l.getD i 0)
        = l.getD ((i + k) % l.length) 0 := by
  induction k with
  | zero =>
    intro i hi
    simp [Nat.mod_eq_of_lt hi]
  | succ k ih =>
    intro i hi
    rw [Function.iterate_succ_apply]
    show (fun a => tabStep l a false)^[k] (tabStep l (l.getD i 0) false)
      = l.getD ((i + (k + 1)) % l.length) 0
    rw [tabStep_getD l hnd i hi, ih _ (Nat.mod_lt _ (by omega))]
    congr 1
    rw [Nat.mod_add_mod]
    congr 1
    omega

/-- C6: while the drawer is open, the Tab handler suppresses the key when no
focusable element exists; plain Tab on the last focusable element wraps
focus to the first and Shift+Tab on the first wraps to the last; and with
the browser default advancing focus between adjacent elements, a cycle of
`N` distinct focusable elements returns to the first after `N` plain Tab
presses from the first. -/
theorem C6_focus_trap :
    (∀ (a : Nat) (sh : Bool), handleTabKey [] a sh = .suppress) ∧
    (∀ (l : List Nat) (h : l ≠ []),
      handleTabKey l (l.getLast h) false = .focusTo (l.head h)) ∧
    (∀ (l : List Nat) (h : l ≠ []),
      handleTabKey l (l.head h) true = .focusTo (l.getLast h)) ∧
    (∀ (l : List Nat) (h : l ≠ []), l.Nodup →
      (fun a => tabStep l a false)^[l.length] (l.head h) = l.head h) := by
  refine ⟨?_, ?_, ?_, ?_⟩
  · intro a sh; rfl
  · intro l h
    rcases l with _ | ⟨f, rest⟩
    · exact absurd rfl h
    · exact handleTabKey_wrap_forward f rest _ rfl
  · intro l h
    rcases l with _ | ⟨f, rest⟩
    · exact absurd rfl h
    · exact handleTabKey_wrap_backward f rest
  · intro l h hnd
    have h0 : 0 < l.length := List.length_pos.mpr h
    have hhead : l.head h = l.getD 0 0 := by
      rw [List.getD_eq_getElem _ _ h0, List.head_eq_getElem_zero]
    rw [hhead, tabStep_cycle_aux l hnd l.length 0 h0]
    simp

/-- C6 witness on the three focusable elements of a concrete drawer: Tab
with no focusables is suppressed; Tab on the last wraps to the first;
Shift+Tab on the first wraps to the last; three Tab presses from the first
return to it. -/
theorem C6_witness :
    handleTabKey [] 5 false = .suppress ∧
    handleTabKey [3, 4, 7] 7 false = .focusTo 3 ∧
    handleTabKey [3, 4, 7] 3 true = .focusTo 7 ∧
    (fun a => tabStep [3, 4, 7] a false)^[3] 3 = 3 :=
  ⟨C6_focus_trap.1 5 false,
   C6_focus_trap.2.1 [3, 4, 7] (by simp),
   C6_focus_trap.2.2.1 [3, 4, 7] (by simp),
   C6_focus_trap.2.2.2 [3, 4, 7] (by simp) (by decide)⟩

/-- Digit characters render the digit they were built from. -/
theorem digCh_isDigit (n : Nat) (h : n < 10) : (digCh n).isDigit = true := by
  interval_cases n <;> decide

/-- Digit characters decode back to the digit they were built from. -/
theorem digCh_toNat (n : Nat) (h : n < 10) : (digCh n).toNat - 48 = n := by
  interval_cases n <;> decide

/-- Appending one digit multiplies the decoded value by ten and adds it. -/
theorem digitsValN_append_single (l : List Char) (c : Char) :
    digitsValN (l ++ [c]) = digitsValN l * 10 + (c.toNat - 48) := by
  simp [digitsValN, List.foldl_append]

/-- With enough fuel the decimal rendering is never empty. -/
theorem natReprAux_ne_nil :
    ∀ fuel n, n < fuel → natReprAux fuel n ≠ [] := by
  intro fuel
  induction fuel with
  | zero => intro n h; omega
  | succ f ih =>
    intro n _
    by_cases h10 : n < 10
    · simp [natReprAux, h10]
    · simp [natReprAux, h10]

/-- With enough fuel the decimal rendering consists of digit characters. -/
theorem natReprAux_digits :
    ∀ fuel n, n < fuel → ∀ c ∈ natReprAux fuel n, c.isDigit = true := by
  intro fuel
  induction fuel with
  | zero => intro n h; omega
  | succ f ih =>
    intro n hn c hc
    by_cases h10 : n < 10
    · simp [natReprAux, h10] at hc
      subst hc
      exact digCh_isDigit n h10
    · simp only [natReprAux, h10, if_false, List.mem_append,
        List.mem_singleton] at hc
      rcases hc with hc | hc
      · have hdiv : n / 10 < n := Nat.div_lt_self (by omega) (by omega)
        exact ih (n / 10) (by omega) c hc
      · subst hc
        exact digCh_isDigit (n % 10) (Nat.mod_lt _ (by omega))

/-- With enough fuel the decimal rendering decodes to the number. -/
theorem natReprAux_val :
    ∀ fuel n, n < fuel → digitsValN (natReprAux fuel n) = n := by
  intro fuel
  induction fuel with
  | zero => intro n h; omega
  | succ f ih =>
    intro n hn
    by_cases h10 : n < 10
    · simp [natReprAux, h10, digitsValN]
      have := digCh_toNat n h10
      omega
    · have hdiv : n / 10 < n := Nat.div_lt_self (by omega) (by omega)
      rw [show natReprAux (f + 1) n
          = natReprAux f (n / 10) ++ [digCh (n % 10)] by
        simp [natReprAux, h10]]
      rw [digitsValN_append_single, ih (n / 10) (by omega),
        digCh_toNat (n % 10) (Nat.mod_lt _ (by omega))]
      have := Nat.div_add_mod n 10
      omega

/-- The decimal rendering of a natural number is a non-empty string of
digit characters decoding to the number. -/
theorem natStr_facts (n : Nat) :
    (natStr n).data ≠ [] ∧ (∀ c ∈ (natStr n).data, c.isDigit = true) ∧
      digitsValN ((natStr n).data) = n :=
  ⟨natReprAux_ne_nil (n + 1) n (by omega),
   natReprAux_digits (n + 1) n (by omega),
   natReprAux_val (n + 1) n (by omega)⟩

/-- The two-digit fractional rendering is exactly two digit characters
decoding back to the rendered value. -/
theorem pad2_spec (r : Nat) (h : r < 100) :
    ∃ c1 c2, (pad2 r).data = [c1, c2] ∧ c1.isDigit = true ∧
      c2.isDigit = true ∧ (c1.toNat - 48) * 10 + (c2.toNat - 48) = r := by
  by_cases h10 : r < 10
  · refine ⟨'0', digCh r, ?_, by decide, digCh_isDigit r h10, ?_⟩
    · unfold pad2
      rw [if_pos h10, String.data_append]
      show '0' :: (natStr r).data = _
      unfold natStr
      rw [show natReprAux (r + 1) r = [digCh r] by simp [natReprAux, h10]]
    · have := digCh_toNat r h10
      simp
      omega
  · obtain ⟨f, rfl⟩ : ∃ f, r = f + 1 := ⟨r - 1, by omega⟩
    have hq : (f + 1) / 10 < 10 := by omega
    refine ⟨digCh ((f + 1) / 10), digCh ((f + 1) % 10), ?_,
      digCh_isDigit _ hq, digCh_isDigit _ (Nat.mod_lt _ (by omega)), ?_⟩
    · unfold pad2
      rw [if_neg h10]
      unfold natStr
      rw [show natReprAux (f + 1 + 1) (f + 1)
          = natReprAux (f + 1) ((f + 1) / 10) ++ [digCh ((f + 1) % 10)] by
        simp [natReprAux, h10]]
      rw [show natReprAux (f + 1) ((f + 1) / 10) = [digCh ((f + 1) / 10)] by
        simp [natReprAux, hq]]
      rfl
    · have h1 := digCh_toNat ((f + 1) / 10) hq
      have h2 := digCh_toNat ((f + 1) % 10) (Nat.mod_lt _ (by omega))
      have h3 := Nat.div_add_mod (f + 1) 10
      omega

/-- `takeWhile` over an all-true prefix followed by a failing character is
the prefix. -/
theorem takeWhile_append_stop (p : Char → Bool) (l1 : List Char) (c : Char)
    (l2 : List Char) (h1 : ∀ x ∈ l1, p x = true) (h2 : p c = false) :
    (l1 ++ c :: l2).takeWhile p = l1 := by
  induction l1 with
  | nil => simp [List.takeWhile_cons, h2]
  | cons a t ih =>
    have ha : p a = true := h1 a (by simp)
    simp [List.takeWhile_cons, ha]
    exact ih (fun x hx => h1 x (by simp [hx]))

/-- `dropWhile` over an all-true prefix followed by a failing character is
the failing character and what follows. -/
theorem dropWhile_append_stop (p : Char → Bool) (l1 : List Char) (c : Char)
    (l2 : List Char) (h1 : ∀ x ∈ l1, p x = true) (h2 : p c = false) :
    (l1 ++ c :: l2).dropWhile p = c :: l2 := by
  induction l1 with
  | nil => simp [List.dropWhile_cons, h2]
  | cons a t ih =>
    have ha : p a = true := h1 a (by simp)
    simp [List.dropWhile_cons, ha]
    exact ih (fun x hx => h1 x (by simp [hx]))

/-- `formatMoney` emits a dollar sign, an optional minus, an integer part
and exactly two fractional digits, and the reading of that shape decodes to
the original number of minor units. -/
theorem formatMoney_roundtrip (cents : Int) :
    readMoney (formatMoney cents) = some cents := by
  set a := cents.natAbs with ha
  have hr : a % 100 < 100 := Nat.mod_lt _ (by omega)
  obtain ⟨c1, c2, hpad, hd1, hd2, hval⟩ := pad2_spec (a % 100) hr
  obtain ⟨hne, hdig, hv⟩ := natStr_facts (a / 100)
  rcases hq : (natStr (a / 100)).data with _ | ⟨c0, t⟩
  · exact absurd hq hne
  rw [hq] at hdig hv
  have hc0 : c0.isDigit = true := hdig c0 (by simp)
  have htw : ((c0 :: t) ++ '.' :: [c1, c2]).takeWhile Char.isDigit
      = c0 :: t := takeWhile_append_stop _ _ _ _ hdig (by decide)
  have hdw : ((c0 :: t) ++ '.' :: [c1, c2]).dropWhile Char.isDigit
      = '.' :: [c1, c2] := dropWhile_append_stop _ _ _ _ hdig (by decide)
  have hbody : readMoneyBody ((c0 :: t) ++ '.' :: [c1, c2])
      = some (a / 100 * 100 + a % 100) := by
    rw [readMoneyBody.eq_def]
    simp only [htw, hdw]
    simp [hd1, hd2, hv, hval]
  by_cases hneg : cents < 0
  · have hdata : (formatMoney cents).data
        = '$' :: '-' :: ((c0 :: t) ++ '.' :: [c1, c2]) := by
      unfold formatMoney
      rw [if_pos hneg]
      simp [String.data_append, ← ha, hq, hpad]
    rw [readMoney.eq_def, hdata]
    simp only [readMoneySigned, if_true]
    rw [hbody]
    simp
    omega
  · have hdata : (formatMoney cents).data
        = '$' :: ((c0 :: t) ++ '.' :: [c1, c2]) := by
      unfold formatMoney
      rw [if_neg hneg]
      simp [String.data_append, ← ha, hq, hpad]
    rw [readMoney.eq_def, hdata]
    simp only [List.cons_append, readMoneySigned, if_true]
    rw [if_neg (by intro hEq; rw [hEq] at hc0; exact absurd hc0 (by decide))]
    rw [show readMoneyBody (c0 :: (t ++ '.' :: [c1, c2]))
        = some (a / 100 * 100 + a % 100) from hbody]
    simp
    omega

/-- C8: `formatMoney` divides its integer minor-units argument by one
hundred and renders it with a dollar-sign prefix and exactly two decimal
places — every output parses back, through a reader demanding exactly that
shape, to the original minor-units value — and in particular 1050 renders
as ten dollars fifty and 0 as zero dollars. -/
theorem C8_formatMoney :
    formatMoney 1050 = "$10.50" ∧ formatMoney 0 = "$0.00" ∧
      ∀ cents : Int, readMoney (formatMoney cents) = some cents :=
  ⟨by decide, by decide, formatMoney_roundtrip⟩

end CartJS
